import Mathlib

/-
Verification development for the Stellar-Save ROSCA contract
(src/contracts/stellar-save/src/lib.rs and payout_executor.rs).

The contract is shallowly embedded: Soroban persistent storage becomes an
explicit `ContractState` record of association lists, addresses become
naturals, `u64`/`u32` become `Nat` (with explicit `2^64` bounds where the
source uses checked arithmetic), `i128` becomes `Int`, fallible functions
return a `PResult` that distinguishes recoverable errors from fatal
contract violations (Rust panics).

Modules of the repository that are declared in lib.rs but whose source is
not under src/ (group.rs, pool.rs, payout.rs) are modelled from the spec;
each such definition carries a doc comment starting `Modelled from the
spec:`.  Everything else is translated directly from the source.
-/

set_option autoImplicit false

namespace StellarSave

/-- Addresses are modelled as naturals; only equality of addresses matters
to the payout protocol. -/
abbrev Address := Nat

/-- The error enumeration of the contract (error.rs is not under src/, but
the exact variant set is determined by the uses in lib.rs and
payout_executor.rs together with the spec's error taxonomy, section 7). -/
inductive StellarSaveError where
  | GroupNotFound
  | InvalidState
  | CycleNotComplete
  | InvalidAmount
  | NotMember
  | InvalidRecipient
  | PayoutFailed
  | InternalError
  | Overflow
  deriving DecidableEq, Repr

/-- Result of a contract computation: `ok`, a recoverable error, or a
fatal contract violation (a Rust panic, e.g. `PayoutRecord::new` with a
non-positive amount, or `Group::advance_cycle` on a completed group). -/
inductive PResult (α : Type) where
  | ok (a : α)
  | err (e : StellarSaveError)
  | fatal
  deriving DecidableEq, Repr

/-- Group lifecycle status.  `Active` and `Completed` are the states used
by the payout executor; `Forming` stands for the non-terminal states owned
by the excluded creation/enrollment component (spec, section 3). -/
inductive GroupStatus where
  | Forming
  | Active
  | Completed
  deriving DecidableEq, Repr

/-- The Group record (group.rs is not under src/; the field set follows
the spec's data model and the constructor call
`Group::new(id, creator, contribution_amount, cycle_duration,
member_count, min_members, created_at)` in the source's tests). -/
structure Group where
  id : Nat
  creator : Address
  contribution_amount : Int
  cycle_duration : Nat
  member_count : Nat
  min_members : Nat
  created_at : Nat
  current_cycle : Nat
  status : GroupStatus
  is_active : Bool
  deriving DecidableEq, Repr

/-- Member profile, one per (group, member address); field set as used in
payout_executor.rs (tests construct `MemberProfile { address, group_id,
payout_position, joined_at }`). -/
structure MemberProfile where
  address : Address
  group_id : Nat
  payout_position : Nat
  joined_at : Nat
  deriving DecidableEq, Repr

/-- Immutable payout record; field set as read back in the source's tests
(`recipient`, `group_id`, `cycle_number`, `amount`, `timestamp`). -/
structure PayoutRecord where
  recipient : Address
  group_id : Nat
  cycle_number : Nat
  amount : Int
  timestamp : Nat
  deriving DecidableEq, Repr

/-- Pool information derived per (group, cycle); field set from
payout_executor.rs's tests, which construct `PoolInfo` literally. -/
structure PoolInfo where
  group_id : Nat
  cycle : Nat
  member_count : Nat
  contribution_amount : Int
  total_pool_amount : Int
  current_contributions : Int
  contributors_count : Nat
  is_cycle_complete : Bool
  deriving DecidableEq, Repr

/-- The persistent storage of the contract, one association list per
composite-key family used by the source (`StorageKeyBuilder::group_data`,
`group_members`, `member_profile`, `payout_record`, `payout_recipient`,
`next_group_id`), plus the per-(group, cycle) contribution ledger
(aggregate sum and contributor count) that the excluded contribution
component writes, and the ledger timestamp `env.ledger().timestamp()`. -/
structure ContractState where
  groups : List (Nat × Group)
  groupMembers : List (Nat × List Address)
  memberProfiles : List ((Nat × Address) × MemberProfile)
  payoutRecords : List ((Nat × Nat) × PayoutRecord)
  payoutRecipients : List ((Nat × Nat) × Address)
  contribLedger : List ((Nat × Nat) × (Int × Nat))
  nextGroupId : Option Nat
  timestamp : Nat
  deriving DecidableEq, Repr

/-- `u64::checked_add` on values below `2^64`. -/
def checkedAddU64 (a b : Nat) : Option Nat :=
  if a + b < 2 ^ 64 then some (a + b) else none

/-- `StellarSaveContract::generate_next_group_id` from lib.rs: read the
counter (default 0), checked-add 1 (Overflow on failure), store and
return the new id. -/
def generate_next_group_id (s : ContractState) : PResult Nat × ContractState :=
  let current_id := s.nextGroupId.getD 0
  match checkedAddU64 current_id 1 with
  | none => (.err .Overflow, s)
  | some next_id => (.ok next_id, { s with nextGroupId := some next_id })

/-- `StellarSaveContract::increment_group_id` from lib.rs: read the
counter (default 0), checked-add 1 (Overflow on failure), store and
return the new id. -/
def increment_group_id (s : ContractState) : PResult Nat × ContractState :=
  let current_id := s.nextGroupId.getD 0
  match checkedAddU64 current_id 1 with
  | none => (.err .Overflow, s)
  | some next_id => (.ok next_id, { s with nextGroupId := some next_id })

/-- State after `n` successive calls of `increment_group_id`. -/
def iterIds : Nat → ContractState → ContractState
  | 0, s => s
  | n + 1, s => (increment_group_id (iterIds n s)).2

/-- `i128::MAX`. -/
def i128MAX : Int := 2 ^ 127 - 1

/-- Modelled from the spec: `PoolCalculator::get_pool_info` (pool.rs is
not under src/).  Spec section 4.1: reads the group configuration
(`GroupNotFound` if absent) and the per-cycle contribution ledger and
computes `total_pool_amount = contribution_amount * member_count`,
`current_contributions` (recorded sum), `contributors_count`, and
`is_cycle_complete = contributors_count >= member_count AND
current_contributions >= total_pool_amount` (spec section 3). -/
def PoolCalculator.get_pool_info (s : ContractState) (group_id cycle : Nat) :
    PResult PoolInfo :=
  match List.lookup group_id s.groups with
  | none => .err .GroupNotFound
  | some g =>
    let total : Int := g.contribution_amount * (g.member_count : Int)
    let ledger := (List.lookup (group_id, cycle) s.contribLedger).getD (0, 0)
    .ok
      { group_id := group_id
        cycle := cycle
        member_count := g.member_count
        contribution_amount := g.contribution_amount
        total_pool_amount := total
        current_contributions := ledger.1
        contributors_count := ledger.2
        is_cycle_complete :=
          decide (g.member_count ≤ ledger.2) && decide (total ≤ ledger.1) }

/-- Modelled from the spec: `PoolCalculator::validate_pool_ready_for_payout`
(pool.rs is not under src/).  Spec section 4.1: `CycleNotComplete` if
`contributors_count < member_count`; `InvalidAmount` if
`current_contributions != total_pool_amount` (strict equality). -/
def PoolCalculator.validate_pool_ready_for_payout (p : PoolInfo) : PResult Unit :=
  if p.contributors_count < p.member_count then .err .CycleNotComplete
  else if p.current_contributions ≠ p.total_pool_amount then .err .InvalidAmount
  else .ok ()

/-- Modelled from the spec: `PoolCalculator::calculate_payout_amount`
(pool.rs is not under src/).  Spec section 4.1: subtracts a fee (always
zero in this version) from the total; with fee `0` the checked
subtraction cannot fail, so the result is always `Ok(total)`. -/
def PoolCalculator.calculate_payout_amount (total_pool_amount : Int) : PResult Int :=
  let fee : Int := 0
  .ok (total_pool_amount - fee)

/-- `validate_cycle_complete` from payout_executor.rs: get the pool info
and validate readiness, returning the pool info. -/
def validate_cycle_complete (s : ContractState) (group_id current_cycle : Nat) :
    PResult PoolInfo :=
  match PoolCalculator.get_pool_info s group_id current_cycle with
  | .err e => .err e
  | .fatal => .fatal
  | .ok pool_info =>
    match PoolCalculator.validate_pool_ready_for_payout pool_info with
    | .err e => .err e
    | .fatal => .fatal
    | .ok _ => .ok pool_info

/-- The loop body of `identify_recipient`: walk the member list, load
each member's profile (`InvalidState` if missing, an early return in the
source), and track the last member whose `payout_position` equals the
current cycle together with the number of matches. -/
def scanMembers (s : ContractState) (group_id cycle : Nat) :
    List Address → Option Address × Nat → PResult (Option Address × Nat)
  | [], acc => .ok acc
  | m :: rest, (recipient, cnt) =>
    match List.lookup (group_id, m) s.memberProfiles with
    | none => .err .InvalidState
    | some profile =>
      if profile.payout_position = cycle then
        scanMembers s group_id cycle rest (some m, cnt + 1)
      else
        scanMembers s group_id cycle rest (recipient, cnt)

/-- `identify_recipient` from payout_executor.rs: load the member list
(`GroupNotFound` if absent), require its length to equal `member_count`
(`InvalidState` otherwise), scan all members counting those whose
`payout_position` equals `current_cycle`; zero or multiple matches is
`InvalidState`, exactly one match returns that member (the source's
`recipient.unwrap()` on a `None` would panic, modelled as `fatal`). -/
def identify_recipient (s : ContractState) (group_id current_cycle member_count : Nat) :
    PResult Address :=
  match List.lookup group_id s.groupMembers with
  | none => .err .GroupNotFound
  | some members =>
    if members.length ≠ member_count then .err .InvalidState
    else
      match scanMembers s group_id current_cycle members (none, 0) with
      | .err e => .err e
      | .fatal => .fatal
      | .ok (recipient, match_count) =>
        match match_count with
        | 0 => .err .InvalidState
        | 1 =>
          match recipient with
          | some a => .ok a
          | none => .fatal
        | _ + 2 => .err .InvalidState

/-- `verify_recipient_eligibility` from payout_executor.rs: `NotMember`
if the recipient has no member profile; otherwise scan cycles
`0..=current_cycle` and return `InvalidRecipient` on the first cycle
whose recorded payout recipient equals this recipient; otherwise `Ok`. -/
def verify_recipient_eligibility (s : ContractState) (group_id : Nat)
    (recipient : Address) (current_cycle : Nat) : PResult Unit :=
  if (List.lookup (group_id, recipient) s.memberProfiles).isNone then
    .err .NotMember
  else
    match (List.range (current_cycle + 1)).find?
        (fun cycle => List.lookup (group_id, cycle) s.payoutRecipients == some recipient) with
    | some _ => .err .InvalidRecipient
    | none => .ok ()

/-- `calculate_and_validate_payout_amount` from payout_executor.rs:
compute the net payout via the PoolCalculator and require it to be
strictly positive (`InvalidAmount` otherwise). -/
def calculate_and_validate_payout_amount (pool_info : PoolInfo) : PResult Int :=
  match PoolCalculator.calculate_payout_amount pool_info.total_pool_amount with
  | .err e => .err e
  | .fatal => .fatal
  | .ok payout_amount =>
    if payout_amount ≤ 0 then .err .InvalidAmount
    else .ok payout_amount

/-- `verify_contract_balance` from payout_executor.rs: the balance query
is a placeholder (`let balance: i128 = 0;` in the source); the check
fails with `PayoutFailed` whenever `balance < payout_amount`. -/
def verify_contract_balance (payout_amount : Int) : PResult Unit :=
  let balance : Int := 0
  if balance < payout_amount then .err .PayoutFailed
  else .ok ()

/-- `execute_transfer` from payout_executor.rs: `PayoutFailed` if the
amount is non-positive, `Overflow` if the amount exceeds `i128::MAX`
(unsatisfiable for an `i128` in the source), and otherwise a placeholder
success (the actual token transfer is a TODO in the source). -/
def execute_transfer (_recipient : Address) (amount : Int) : PResult Unit :=
  if amount ≤ 0 then .err .PayoutFailed
  else if i128MAX < amount then .err .Overflow
  else .ok ()

/-- Modelled from the spec: `PayoutRecord::new` (payout.rs is not under
src/).  Spec section 3: constructing a record with amount <= 0 is a
programming-contract violation (a panic, per the source's tests
`test_record_payout_zero_amount` / `test_record_payout_negative_amount`),
modelled as `fatal`. -/
def PayoutRecord.new (recipient : Address) (group_id cycle : Nat)
    (amount : Int) (timestamp : Nat) : PResult PayoutRecord :=
  if amount ≤ 0 then .fatal
  else
    .ok
      { recipient := recipient
        group_id := group_id
        cycle_number := cycle
        amount := amount
        timestamp := timestamp }

/-- Modelled from the spec: `PayoutRecord::validate` (payout.rs is not
under src/).  The only stated validation constraint on a record is
amount > 0 (spec section 3). -/
def PayoutRecord.validate (r : PayoutRecord) : Bool :=
  decide (0 < r.amount)

/-- `record_payout` from payout_executor.rs: construct the record (the
constructor panics on amount <= 0), validate it (`InternalError` if
validation fails), then store the full record at the payout-record key
and the recipient at the payout-recipient key. -/
def record_payout (s : ContractState) (group_id cycle : Nat)
    (recipient : Address) (amount : Int) (timestamp : Nat) :
    PResult Unit × ContractState :=
  match PayoutRecord.new recipient group_id cycle amount timestamp with
  | .err e => (.err e, s)
  | .fatal => (.fatal, s)
  | .ok payout_record =>
    if ¬ payout_record.validate then (.err .InternalError, s)
    else
      (.ok (),
        { s with
          payoutRecords := ((group_id, cycle), payout_record) :: s.payoutRecords
          payoutRecipients := ((group_id, cycle), recipient) :: s.payoutRecipients })

/-- `update_member_status` from payout_executor.rs: load the recipient's
member profile, `InternalError` if it does not exist; no storage write. -/
def update_member_status (s : ContractState) (group_id : Nat)
    (recipient : Address) : PResult Unit :=
  match List.lookup (group_id, recipient) s.memberProfiles with
  | none => .err .InternalError
  | some _ => .ok ()

/-- Modelled from the spec: `Group::is_complete` (group.rs is not under
src/).  Per the doc comments in payout_executor.rs, a group is complete
when `current_cycle >= max_members`. -/
def Group.is_complete (g : Group) : Bool :=
  decide (g.member_count ≤ g.current_cycle)

/-- Modelled from the spec: `Group::advance_cycle` (group.rs is not
under src/).  Spec section 4.2: panics if the group is already complete
(modelled as `fatal`); otherwise increments `current_cycle` by exactly 1
and, when the new value reaches `member_count`, sets the status to
`Completed` and `is_active` to `false`. -/
def Group.advance_cycle (g : Group) : PResult Group :=
  if g.is_complete then .fatal
  else
    let c := g.current_cycle + 1
    if g.member_count ≤ c then
      .ok { g with current_cycle := c, status := .Completed, is_active := false }
    else
      .ok { g with current_cycle := c }

/-- `advance_cycle_or_complete` from payout_executor.rs: call
`Group::advance_cycle` (which panics on an already-complete group) and
persist the updated group at its group-data key. -/
def advance_cycle_or_complete (s : ContractState) (g : Group) :
    PResult Group × ContractState :=
  match g.advance_cycle with
  | .err e => (.err e, s)
  | .fatal => (.fatal, s)
  | .ok g2 => (.ok g2, { s with groups := (g2.id, g2) :: s.groups })

/-- `emit_payout_event` from payout_executor.rs: best-effort event
emission; it touches no persistent storage and never fails. -/
def emit_payout_event (_group_id : Nat) (_recipient : Address)
    (_amount : Int) (_cycle _timestamp : Nat) : Unit := ()

/-- `execute_payout` from payout_executor.rs, the sole public entry
point: load the group (`GroupNotFound`), require `Active` status
(`InvalidState`), reject an already-paid cycle (`InvalidState`), validate
cycle completeness, identify and verify the recipient, validate the
amount and the contract balance, then transfer, record, update member
status, emit the event, and advance the cycle.  The source's local
bindings `current_cycle = group.current_cycle` and
`timestamp = env.ledger().timestamp()` are inlined, and the (storage-free)
event emission of step 12 is elided. -/
def execute_payout (s : ContractState) (group_id : Nat) :
    PResult Unit × ContractState :=
  match List.lookup group_id s.groups with
  | none => (.err .GroupNotFound, s)
  | some group =>
    if group.status ≠ GroupStatus.Active then (.err .InvalidState, s)
    else
      if (List.lookup (group_id, group.current_cycle) s.payoutRecipients).isSome then
        (.err .InvalidState, s)
      else
        match validate_cycle_complete s group_id group.current_cycle with
        | .err e => (.err e, s)
        | .fatal => (.fatal, s)
        | .ok pool_info =>
        match identify_recipient s group_id group.current_cycle group.member_count with
        | .err e => (.err e, s)
        | .fatal => (.fatal, s)
        | .ok recipient =>
        match verify_recipient_eligibility s group_id recipient group.current_cycle with
        | .err e => (.err e, s)
        | .fatal => (.fatal, s)
        | .ok _ =>
        match calculate_and_validate_payout_amount pool_info with
        | .err e => (.err e, s)
        | .fatal => (.fatal, s)
        | .ok payout_amount =>
        match verify_contract_balance payout_amount with
        | .err e => (.err e, s)
        | .fatal => (.fatal, s)
        | .ok _ =>
        match execute_transfer recipient payout_amount with
        | .err e => (.err e, s)
        | .fatal => (.fatal, s)
        | .ok _ =>
        match record_payout s group_id group.current_cycle recipient payout_amount s.timestamp with
        | (.err e, s1) => (.err e, s1)
        | (.fatal, s1) => (.fatal, s1)
        | (.ok _, s1) =>
        match update_member_status s1 group_id recipient with
        | .err e => (.err e, s1)
        | .fatal => (.fatal, s1)
        | .ok _ =>
        match advance_cycle_or_complete s1 group with
        | (.err e, s2) => (.err e, s2)
        | (.fatal, s2) => (.fatal, s2)
        | (.ok _, s2) => (.ok (), s2)

/-! ## Example states used by concrete theorems and witnesses -/

/-- A state with no storage entries at all. -/
def emptyState : ContractState :=
  { groups := [], groupMembers := [], memberProfiles := [], payoutRecords := []
    payoutRecipients := [], contribLedger := [], nextGroupId := none, timestamp := 0 }

/-- The spec's scenario group: id 1, three members, contribution 1_000_000
per member per cycle, currently Active at cycle 0. -/
def scenarioGroup : Group :=
  { id := 1, creator := 99, contribution_amount := 1000000, cycle_duration := 604800
    member_count := 3, min_members := 2, created_at := 0, current_cycle := 0
    status := .Active, is_active := true }

/-- The spec's scenario state: the scenario group with members 10, 20, 30
at payout positions 0, 1, 2, three contributions of 1_000_000 recorded for
cycle 0, and no payout record. -/
def scenarioState : ContractState :=
  { groups := [(1, scenarioGroup)]
    groupMembers := [(1, [10, 20, 30])]
    memberProfiles :=
      [ ((1, 10), { address := 10, group_id := 1, payout_position := 0, joined_at := 0 })
      , ((1, 20), { address := 20, group_id := 1, payout_position := 1, joined_at := 0 })
      , ((1, 30), { address := 30, group_id := 1, payout_position := 2, joined_at := 0 }) ]
    payoutRecords := []
    payoutRecipients := []
    contribLedger := [((1, 0), (3000000, 3))]
    nextGroupId := some 1
    timestamp := 1234 }

/-- The scenario state after a payout recipient has been recorded for
(group 1, cycle 0). -/
def paidState : ContractState :=
  { scenarioState with payoutRecipients := [((1, 0), 10)] }

/-- A state whose stored member list for group 1 is the single address 10,
whose profile has payout position 0. -/
def mismatchState : ContractState :=
  { emptyState with
    groupMembers := [(1, [10])]
    memberProfiles :=
      [((1, 10), { address := 10, group_id := 1, payout_position := 0, joined_at := 0 })] }

/-- A state whose group-id counter holds `u64::MAX`. -/
def maxCounterState : ContractState :=
  { emptyState with nextGroupId := some (2 ^ 64 - 1) }

/-- The scenario group after all three of its cycles are done. -/
def doneGroup : Group :=
  { scenarioGroup with current_cycle := 3, status := .Completed, is_active := false }

/-- Whether the stored profile of member `m` in the group has
`payout_position` equal to `cycle` — the per-member test made by the scan
loop of `identify_recipient`. -/
def matchesCycle (s : ContractState) (group_id cycle : Nat) (m : Address) : Bool :=
  match List.lookup (group_id, m) s.memberProfiles with
  | none => false
  | some p => p.payout_position == cycle

/-- The errors that the validation phase (steps 1-8) of `execute_payout`
can raise, per the spec's propagation policy. -/
def validationErrors : List StellarSaveError :=
  [.GroupNotFound, .InvalidState, .CycleNotComplete, .InvalidAmount,
   .NotMember, .InvalidRecipient, .PayoutFailed]

/-! ## Claim theorems -/

/-- C10: `generate_next_group_id` and `increment_group_id` are
extensionally equal: on every storage state they return the same result
and leave the counter in the same final state. -/
theorem generate_next_group_id_eq_increment_group_id (s : ContractState) :
    generate_next_group_id s = increment_group_id s := rfl

/-- The group-id counter, read with default 0, equals `n` after `n`
successive `increment_group_id` calls from an uninitialized counter, as
long as `n` fits in a `u64`. -/
theorem iterIds_getD (s : ContractState) (h : s.nextGroupId = none) :
    ∀ n, n < 2 ^ 64 → (iterIds n s).nextGroupId.getD 0 = n := by
  intro n
  induction n with
  | zero => intro _; simp [iterIds, h]
  | succ n ih =>
    intro hn
    have hprev := ih (by omega)
    simp only [iterIds, increment_group_id, checkedAddU64, hprev]
    rw [if_pos hn]
    rfl

/-- C8: `increment_group_id` returns the previous counter value plus one
via a checked add and stores it; from an uninitialized counter the n-th
call returns n (so ids run 1, 2, 3, ..., never zero, never reused); a
stored counter of `u64::MAX` yields the `Overflow` error with the counter
unchanged. -/
theorem increment_group_id_spec (s : ContractState) :
    (s.nextGroupId.getD 0 + 1 < 2 ^ 64 →
      increment_group_id s =
        (.ok (s.nextGroupId.getD 0 + 1),
         { s with nextGroupId := some (s.nextGroupId.getD 0 + 1) }))
    ∧ (s.nextGroupId = some (2 ^ 64 - 1) →
      increment_group_id s = (.err .Overflow, s))
    ∧ (s.nextGroupId = none → ∀ n, n + 1 < 2 ^ 64 →
      (increment_group_id (iterIds n s)).1 = .ok (n + 1)) := by
  refine ⟨?_, ?_, ?_⟩
  · intro h
    simp only [increment_group_id, checkedAddU64]
    rw [if_pos h]
  · intro h
    simp only [increment_group_id, checkedAddU64, h]
    rw [if_neg (by decide)]
  · intro h n hn
    have hg := iterIds_getD s h n (by omega)
    simp only [increment_group_id, checkedAddU64, hg]
    rw [if_pos hn]

/-- Witness for C8 at concrete states: the first call on an uninitialized
counter returns 1, the third returns 3, and a counter at `u64::MAX`
yields `Overflow`. -/
theorem increment_group_id_spec_witness :
    increment_group_id emptyState = (.ok 1, { emptyState with nextGroupId := some 1 })
    ∧ increment_group_id maxCounterState = (.err .Overflow, maxCounterState)
    ∧ (increment_group_id (iterIds 2 emptyState)).1 = .ok 3 :=
  ⟨(increment_group_id_spec emptyState).1 (by decide),
   (increment_group_id_spec maxCounterState).2.1 rfl,
   (increment_group_id_spec emptyState).2.2 rfl 2 (by decide)⟩

/-- C1 (failing input): on the spec's scenario state — Active group, 3
members, contribution 1_000_000, 3 contributions recorded for cycle 0,
no payout record — `execute_payout` does not succeed: the placeholder
balance of 0 in `verify_contract_balance` makes the pre-check fail, so
the call returns `PayoutFailed` and leaves the state unchanged. -/
theorem execute_payout_scenario_placeholder_balance :
    (List.lookup 1 scenarioState.groups).map Group.current_cycle = some 0
    ∧ (List.lookup 1 scenarioState.groups).map Group.status = some .Active
    ∧ List.lookup (1, 0) scenarioState.contribLedger = some (3000000, 3)
    ∧ List.lookup (1, 0) scenarioState.payoutRecipients = none
    ∧ execute_payout scenarioState 1 = (.err .PayoutFailed, scenarioState) := by
  refine ⟨rfl, rfl, rfl, rfl, ?_⟩
  decide

/-- C2: whenever a payout recipient is already recorded for the group's
current cycle, `execute_payout` returns `InvalidState` and leaves the
state unchanged (in particular it creates no second payout record). -/
theorem execute_payout_already_paid (s : ContractState) (group_id : Nat)
    (g : Group) (a : Address)
    (hg : List.lookup group_id s.groups = some g)
    (hp : List.lookup (group_id, g.current_cycle) s.payoutRecipients = some a) :
    execute_payout s group_id = (.err .InvalidState, s) := by
  unfold execute_payout
  rw [hg]
  by_cases hst : g.status = GroupStatus.Active
  · simp [hst, hp]
  · simp [hst]

/-- Witness for C2: on the scenario state with recipient 10 recorded for
cycle 0, `execute_payout` fails with `InvalidState` and changes nothing. -/
theorem execute_payout_already_paid_witness :
    execute_payout paidState 1 = (.err .InvalidState, paidState) :=
  execute_payout_already_paid paidState 1 scenarioGroup 10 rfl rfl

/-- C9: when the stored member-address list of the group has a length
different from the `member_count` argument, `identify_recipient` returns
`InvalidState` (regardless of how many payout positions match). -/
theorem identify_recipient_member_count_mismatch (s : ContractState)
    (group_id cycle member_count : Nat) (members : List Address)
    (hm : List.lookup group_id s.groupMembers = some members)
    (hlen : members.length ≠ member_count) :
    identify_recipient s group_id cycle member_count = .err .InvalidState := by
  unfold identify_recipient
  rw [hm]
  simp [hlen]

/-- Witness for C9: the scenario state stores 3 members for group 1, so
`identify_recipient` with a `member_count` of 5 returns `InvalidState`. -/
theorem identify_recipient_member_count_mismatch_witness :
    identify_recipient scenarioState 1 0 5 = .err .InvalidState :=
  identify_recipient_member_count_mismatch scenarioState 1 0 5 [10, 20, 30] rfl
    (by decide)

/-- C7: `record_payout` with a non-positive amount is a fatal precondition
failure (the `PayoutRecord` constructor panics); with a positive amount it
returns `Ok` and, in the same step, writes the full record at the
payout-record key and the recipient at the payout-recipient key. -/
theorem record_payout_spec (s : ContractState) (group_id cycle : Nat)
    (recipient : Address) (amount : Int) (timestamp : Nat) :
    (amount ≤ 0 → record_payout s group_id cycle recipient amount timestamp = (.fatal, s))
    ∧ (0 < amount →
      record_payout s group_id cycle recipient amount timestamp =
        (.ok (),
          { s with
            payoutRecords :=
              ((group_id, cycle),
                { recipient := recipient, group_id := group_id, cycle_number := cycle
                  amount := amount, timestamp := timestamp }) :: s.payoutRecords
            payoutRecipients := ((group_id, cycle), recipient) :: s.payoutRecipients })) := by
  constructor
  · intro h
    simp [record_payout, PayoutRecord.new, h]
  · intro h
    simp [record_payout, PayoutRecord.new, PayoutRecord.validate, h, not_le.mpr h]

/-- Witness for C7: recording with amount 0 is fatal, recording with
amount 5 writes both keys for (group 1, cycle 0). -/
theorem record_payout_spec_witness :
    record_payout emptyState 1 0 7 0 11 = (.fatal, emptyState)
    ∧ record_payout emptyState 1 0 7 5 11 =
      (.ok (),
        { emptyState with
          payoutRecords :=
            [((1, 0), { recipient := 7, group_id := 1, cycle_number := 0
                        amount := 5, timestamp := 11 })]
          payoutRecipients := [((1, 0), 7)] }) :=
  ⟨(record_payout_spec emptyState 1 0 7 0 11).1 (by decide),
   (record_payout_spec emptyState 1 0 7 5 11).2 (by decide)⟩

/-- C5: `verify_recipient_eligibility` returns `NotMember` exactly when
the recipient has no stored member profile; with a profile present it
returns `InvalidRecipient` exactly when the recipient is the recorded
payout recipient of some cycle in `0..=current_cycle`, and `Ok`
otherwise. -/
theorem verify_recipient_eligibility_spec (s : ContractState) (group_id : Nat)
    (recipient : Address) (current_cycle : Nat) :
    (verify_recipient_eligibility s group_id recipient current_cycle = .err .NotMember ↔
      List.lookup (group_id, recipient) s.memberProfiles = none)
    ∧ (verify_recipient_eligibility s group_id recipient current_cycle = .err .InvalidRecipient ↔
      (List.lookup (group_id, recipient) s.memberProfiles).isSome ∧
        ∃ c, c ≤ current_cycle ∧ List.lookup (group_id, c) s.payoutRecipients = some recipient)
    ∧ (verify_recipient_eligibility s group_id recipient current_cycle = .ok () ↔
      (List.lookup (group_id, recipient) s.memberProfiles).isSome ∧
        ∀ c, c ≤ current_cycle → List.lookup (group_id, c) s.payoutRecipients ≠ some recipient) := by
  unfold verify_recipient_eligibility
  by_cases hmem : (List.lookup (group_id, recipient) s.memberProfiles).isNone
  · rw [if_pos hmem]
    rw [Option.isNone_iff_eq_none] at hmem
    simp [hmem]
  · obtain ⟨p, hp⟩ : ∃ p, List.lookup (group_id, recipient) s.memberProfiles = some p := by
      cases hq : List.lookup (group_id, recipient) s.memberProfiles
      · exact absurd (by simp [hq]) hmem
      · exact ⟨_, rfl⟩
    rw [if_neg hmem]
    cases hfind : (List.range (current_cycle + 1)).find?
        (fun cycle => List.lookup (group_id, cycle) s.payoutRecipients == some recipient) with
    | some c =>
      have hpc := List.find?_some hfind
      have hcm : c < current_cycle + 1 := List.mem_range.mp (List.mem_of_find?_eq_some hfind)
      rw [beq_iff_eq] at hpc
      refine ⟨by simp [hp], ?_, ?_⟩
      · simp only [hp, Option.isSome_some, true_and]
        exact ⟨fun _ => ⟨c, by omega, hpc⟩, fun _ => trivial⟩
      · simp only [hp, Option.isSome_some, true_and]
        constructor
        · intro hcontra; simp at hcontra
        · intro hall; exact absurd hpc (hall c (by omega))
    | none =>
      have hall := List.find?_eq_none.mp hfind
      refine ⟨by simp [hp], ?_, ?_⟩
      · simp only [hp, Option.isSome_some, true_and]
        constructor
        · intro hcontra; simp at hcontra
        · rintro ⟨c, hc, hcc⟩
          have hx := hall c (List.mem_range.mpr (by omega))
          simp [hcc] at hx
      · simp only [hp, Option.isSome_some, true_and]
        constructor
        · intro _ c hc hcc
          have hx := hall c (List.mem_range.mpr (by omega))
          simp [hcc] at hx
        · intro _; trivial

/-- Witness for C5: in the paid scenario state, member 10 is recorded as
cycle 0's recipient, so it is rejected as `InvalidRecipient`. -/
theorem verify_recipient_eligibility_spec_witness :
    verify_recipient_eligibility paidState 1 10 0 = .err .InvalidRecipient :=
  ((verify_recipient_eligibility_spec paidState 1 10 0).2.1).mpr
    ⟨by decide, 0, Nat.le_refl 0, by decide⟩

/-- C6: on a group that is not yet complete, `advance_cycle_or_complete`
increments `current_cycle` by exactly one and persists the group; the
status becomes `Completed` with `is_active = false` exactly when the new
cycle equals `member_count`, and remains `Active` with `is_active = true`
otherwise; on an already-Completed group the call is a fatal contract
violation (the `advance_cycle` panic), not a recoverable error. -/
theorem advance_cycle_or_complete_spec (s : ContractState) (g : Group) :
    (g.current_cycle < g.member_count → g.status = GroupStatus.Active → g.is_active = true →
      ∃ g2,
        advance_cycle_or_complete s g =
          (.ok g2, { s with groups := (g.id, g2) :: s.groups })
        ∧ g2.id = g.id ∧ g2.current_cycle = g.current_cycle + 1
        ∧ (g.current_cycle + 1 = g.member_count →
            g2.status = GroupStatus.Completed ∧ g2.is_active = false)
        ∧ (g.current_cycle + 1 ≠ g.member_count →
            g2.status = GroupStatus.Active ∧ g2.is_active = true))
    ∧ (g.status = GroupStatus.Completed → g.member_count ≤ g.current_cycle →
      advance_cycle_or_complete s g = (.fatal, s)) := by
  constructor
  · intro hlt hst hia
    have hnc : ¬ g.is_complete := by
      simp only [Group.is_complete, decide_eq_true_eq]; omega
    by_cases hdone : g.member_count ≤ g.current_cycle + 1
    · refine ⟨{ g with current_cycle := g.current_cycle + 1, status := .Completed, is_active := false }, ?_, rfl, rfl, ?_, ?_⟩
      · simp [advance_cycle_or_complete, Group.advance_cycle, hnc, hdone]
      · intro _; exact ⟨rfl, rfl⟩
      · intro hne; exact absurd (by omega) hne
    · refine ⟨{ g with current_cycle := g.current_cycle + 1 }, ?_, rfl, rfl, ?_, ?_⟩
      · simp [advance_cycle_or_complete, Group.advance_cycle, hnc, hdone]
      · intro heq; exact absurd (le_of_eq heq.symm) hdone
      · intro _; exact ⟨hst, hia⟩
  · intro _ hge
    have hc : g.is_complete := by
      simp only [Group.is_complete, decide_eq_true_eq]; omega
    simp [advance_cycle_or_complete, Group.advance_cycle, hc]

/-- Witness for C6: advancing the Active scenario group (cycle 0 of 3)
yields cycle 1 and keeps it Active; advancing the completed group is
fatal. -/
theorem advance_cycle_or_complete_spec_witness :
    (∃ g2,
      advance_cycle_or_complete emptyState scenarioGroup =
        (.ok g2, { emptyState with groups := (scenarioGroup.id, g2) :: emptyState.groups })
      ∧ g2.id = scenarioGroup.id ∧ g2.current_cycle = scenarioGroup.current_cycle + 1
      ∧ (scenarioGroup.current_cycle + 1 = scenarioGroup.member_count →
          g2.status = GroupStatus.Completed ∧ g2.is_active = false)
      ∧ (scenarioGroup.current_cycle + 1 ≠ scenarioGroup.member_count →
          g2.status = GroupStatus.Active ∧ g2.is_active = true))
    ∧ advance_cycle_or_complete emptyState doneGroup = (.fatal, emptyState) :=
  ⟨(advance_cycle_or_complete_spec emptyState scenarioGroup).1 (by decide) rfl rfl,
   (advance_cycle_or_complete_spec emptyState doneGroup).2 rfl (by decide)⟩

/-- Evaluation of the member-scan loop of `identify_recipient` when every
listed member has a stored profile: it returns the last matching member
(or the initial accumulator if none match) together with the number of
matches, i.e. the length of the filtered list. -/
theorem scanMembers_eq (s : ContractState) (group_id cycle : Nat) (l : List Address) :
    ∀ (r0 : Option Address) (c0 : Nat),
      (∀ a ∈ l, (List.lookup (group_id, a) s.memberProfiles).isSome) →
      scanMembers s group_id cycle l (r0, c0) =
        .ok (((l.filter (matchesCycle s group_id cycle)).getLast?).elim r0 some,
             c0 + (l.filter (matchesCycle s group_id cycle)).length) := by
  induction l with
  | nil => intro r0 c0 _; simp [scanMembers]
  | cons m rest ih =>
    intro r0 c0 hprof
    obtain ⟨p, hp⟩ : ∃ p, List.lookup (group_id, m) s.memberProfiles = some p := by
      have hm := hprof m (by simp)
      cases hq : List.lookup (group_id, m) s.memberProfiles
      · rw [hq] at hm; simp at hm
      · exact ⟨_, rfl⟩
    have hrest : ∀ a ∈ rest, (List.lookup (group_id, a) s.memberProfiles).isSome :=
      fun a ha => hprof a (List.mem_cons_of_mem _ ha)
    by_cases hmatch : p.payout_position = cycle
    · have hmc : matchesCycle s group_id cycle m = true := by
        simp [matchesCycle, hp, hmatch]
      simp only [scanMembers, hp]
      rw [if_pos hmatch, ih (some m) (c0 + 1) hrest,
        List.filter_cons_of_pos hmc]
      simp only [PResult.ok.injEq, Prod.mk.injEq]
      refine ⟨?_, by simp; omega⟩
      cases hfr : rest.filter (matchesCycle s group_id cycle) with
      | nil => simp
      | cons x xs =>
        rw [List.getLast?_cons_cons]
        cases hlast : (x :: xs).getLast? with
        | none => simp at hlast
        | some y => simp
    · have hmc : matchesCycle s group_id cycle m = false := by
        simp [matchesCycle, hp, hmatch]
      simp only [scanMembers, hp]
      rw [if_neg hmatch, ih r0 c0 hrest, List.filter_cons_of_neg (by simp [hmc])]

/-- C4 (counterexample): a state whose member list for group 1 is `[10]`
with member 10 at payout position 0; with `member_count = 2`, member 10
is the unique listed member whose position equals cycle 0, yet
`identify_recipient` returns `InvalidState` rather than `Ok(10)` because
of the list-length consistency check. -/
theorem identify_recipient_unique_match_rejected :
    List.lookup 1 mismatchState.groupMembers = some [10]
    ∧ (List.lookup (1, 10) mismatchState.memberProfiles).map MemberProfile.payout_position
        = some 0
    ∧ (mismatchState.groupMembers.lookup 1).map
        (fun members => members.filter (matchesCycle mismatchState 1 0)) = some [10]
    ∧ identify_recipient mismatchState 1 0 2 = .err .InvalidState := by
  decide

/-- C4 (amended): provided the stored member list has exactly
`member_count` entries and every listed member has a stored profile,
`identify_recipient` returns `Ok(addr)` exactly when `addr` is the unique
list entry whose profile's `payout_position` equals the current cycle,
and returns `InvalidState` when the number of matching entries is zero or
more than one. -/
theorem identify_recipient_unique_scan (s : ContractState)
    (group_id cycle member_count : Nat) (members : List Address)
    (hm : List.lookup group_id s.groupMembers = some members)
    (hlen : members.length = member_count)
    (hprof : ∀ a ∈ members, (List.lookup (group_id, a) s.memberProfiles).isSome) :
    (∀ a, identify_recipient s group_id cycle member_count = .ok a ↔
        members.filter (matchesCycle s group_id cycle) = [a])
    ∧ ((members.filter (matchesCycle s group_id cycle)).length ≠ 1 →
        identify_recipient s group_id cycle member_count = .err .InvalidState) := by
  unfold identify_recipient
  simp only [hm, hlen, ne_eq, not_true_eq_false, if_false,
    scanMembers_eq s group_id cycle members none 0 hprof]
  cases hfl : members.filter (matchesCycle s group_id cycle) with
  | nil => simp
  | cons x xs =>
    cases xs with
    | nil => simp
    | cons y ys => simp

/-- Witness for the amended C4: on the scenario state (3 members at
positions 0, 1, 2), cycle 0's unique matching member 10 is returned. -/
theorem identify_recipient_unique_scan_witness :
    identify_recipient scenarioState 1 0 3 = .ok 10 :=
  ((identify_recipient_unique_scan scenarioState 1 0 3 [10, 20, 30] rfl rfl
      (by decide)).1 10).mpr (by decide)

/-- When `record_payout` returns a recoverable error, it has written
nothing: the error is raised before either storage write. -/
theorem record_payout_err_state (s : ContractState) (group_id cycle : Nat)
    (recipient : Address) (amount : Int) (timestamp : Nat) (e : StellarSaveError)
    (s1 : ContractState)
    (h : record_payout s group_id cycle recipient amount timestamp = (.err e, s1)) :
    s1 = s := by
  unfold record_payout at h
  split at h
  · simp only [Prod.mk.injEq] at h
    exact h.2.symm
  · simp at h
  · split at h
    · simp only [Prod.mk.injEq] at h
      exact h.2.symm
    · simp at h

/-- The only recoverable error `update_member_status` can raise is
`InternalError`. -/
theorem update_member_status_err (s : ContractState) (group_id : Nat)
    (recipient : Address) (e : StellarSaveError)
    (h : update_member_status s group_id recipient = .err e) :
    e = .InternalError := by
  unfold update_member_status at h
  split at h
  · simp only [PResult.err.injEq] at h
    exact h.symm
  · simp at h

/-- `advance_cycle_or_complete` never returns a recoverable error: it
either succeeds or is fatal (the `advance_cycle` panic). -/
theorem advance_cycle_or_complete_no_err (s : ContractState) (g : Group)
    (e : StellarSaveError) (s2 : ContractState) :
    advance_cycle_or_complete s g ≠ (.err e, s2) := by
  unfold advance_cycle_or_complete Group.advance_cycle
  by_cases h : g.is_complete
  · simp [h]
  · by_cases h2 : g.member_count ≤ g.current_cycle + 1
    · simp [h, h2]
    · simp [h, h2]

/-- C3: whenever `execute_payout` returns one of the validation-phase
errors (`GroupNotFound`, `InvalidState`, `CycleNotComplete`,
`InvalidAmount`, `NotMember`, `InvalidRecipient`, `PayoutFailed`), the
state it returns is exactly the state it was called on: no group record,
member profile, payout record, or recipient-index entry is created,
modified, or deleted. -/
theorem execute_payout_validation_frame (s : ContractState) (group_id : Nat)
    (e : StellarSaveError) (s2 : ContractState)
    (he : e ∈ validationErrors)
    (h : execute_payout s group_id = (.err e, s2)) :
    s2 = s := by
  have hne : e ≠ StellarSaveError.InternalError := by
    intro hcontra
    subst hcontra
    simp [validationErrors] at he
  unfold execute_payout at h
  split at h
  · simp only [Prod.mk.injEq] at h
    exact h.2.symm
  · split at h
    · simp only [Prod.mk.injEq] at h
      exact h.2.symm
    · split at h
      · simp only [Prod.mk.injEq] at h
        exact h.2.symm
      · split at h
        · simp only [Prod.mk.injEq] at h
          exact h.2.symm
        · simp at h
        · split at h
          · simp only [Prod.mk.injEq] at h
            exact h.2.symm
          · simp at h
          · split at h
            · simp only [Prod.mk.injEq] at h
              exact h.2.symm
            · simp at h
            · split at h
              · simp only [Prod.mk.injEq] at h
                exact h.2.symm
              · simp at h
              · split at h
                · simp only [Prod.mk.injEq] at h
                  exact h.2.symm
                · simp at h
                · split at h
                  · simp only [Prod.mk.injEq] at h
                    exact h.2.symm
                  · simp at h
                  · split at h
                    · rename_i e1 s1 heq
                      simp only [Prod.mk.injEq] at h
                      rw [← h.2]
                      exact record_payout_err_state _ _ _ _ _ _ e1 s1 heq
                    · simp at h
                    · rename_i u s1 heq
                      split at h
                      · rename_i e1 hupd
                        simp only [Prod.mk.injEq, PResult.err.injEq] at h
                        have hint : e = StellarSaveError.InternalError := by
                          rw [← h.1]
                          exact update_member_status_err _ _ _ e1 hupd
                        exact absurd hint hne
                      · simp at h
                      · split at h
                        · rename_i e1 s2x heq2
                          exact absurd heq2 (advance_cycle_or_complete_no_err _ _ _ _)
                        · simp at h
                        · simp at h

/-- Witness for C3: a call on the empty state fails with `GroupNotFound`
(a validation error) and the returned state is the empty state itself. -/
theorem execute_payout_validation_frame_witness :
    (execute_payout emptyState 99).2 = emptyState :=
  execute_payout_validation_frame emptyState 99 .GroupNotFound
    (execute_payout emptyState 99).2 (by decide) (by decide)

end StellarSave
